import Mathlib

/-!
Verification development for the authentication / session-lifecycle core of
the api-nebula repository (app/services/auth_service.py, app/crud/session.py,
app/crud/user.py, app/core/security.py, app/core/redis_client.py).

The Python code is shallowly embedded as pure Lean functions over an explicit
system state (Redis cache + MySQL database).  Timestamps are naturals
(seconds).  The JWT codec is embedded abstractly: a token is either a
well-signed claim set or malformed; jwt.decode's signature/expiry checks
become the verify_token function below.  bcrypt (an external library) is
modelled as an injective encoding, since only the success/failure of
verification matters to the code under study.  Redis TTL expiry is not
modelled as an operation: a key that has expired is simply a key absent from
the state.  Store faults that the real program could encounter (a failed
MySQL statement, an exception escaping a helper) are injected through an
explicit Faults record; each fault makes the embedding take exactly the
except-branch the Python code takes there.
-/

namespace ApiNebula

/-- Association-list lookup, modelling a keyed store read. -/
def aget {κ α : Type} [BEq κ] (m : List (κ × α)) (k : κ) : Option α :=
  (m.find? (fun p => p.1 == k)).map (fun p => p.2)

/-- Association-list insert/overwrite, modelling a keyed store write. -/
def aset {κ α : Type} [BEq κ] (m : List (κ × α)) (k : κ) (v : α) : List (κ × α) :=
  (k, v) :: m.filter (fun p => !(p.1 == k))

/-- Association-list delete, modelling a keyed store delete. -/
def adel {κ α : Type} [BEq κ] (m : List (κ × α)) (k : κ) : List (κ × α) :=
  m.filter (fun p => !(p.1 == k))

/-- Settings.ACCESS_TOKEN_EXPIRE_MINUTES (app/config.py line 18). -/
def ACCESS_TOKEN_EXPIRE_MINUTES : Nat := 30

/-- Settings.REFRESH_TOKEN_EXPIRE_DAYS (app/config.py line 19). -/
def REFRESH_TOKEN_EXPIRE_DAYS : Nat := 7

/-- Settings.INACTIVITY_TIMEOUT_SECONDS (app/config.py line 38). -/
def INACTIVITY_TIMEOUT_SECONDS : Nat := 3600

/-- Decoded JWT payload as built by create_access_token / create_refresh_token
(app/core/security.py): user_id, session_id, jti, plus the added type tag and
expiry. -/
structure TokenClaims where
  user_id : Nat
  session_id : String
  jti : String
  type : String
  exp : Nat
deriving Repr, DecidableEq

/-- A serialized bearer token: either a correctly signed token carrying its
claims, or a string that fails jwt.decode's signature/format check. -/
inductive Token where
  | valid : TokenClaims → Token
  | malformed : Token
deriving Repr, DecidableEq

/-- The two failures of verify_token (app/core/security.py lines 33-41):
ValueError "Token expired" (from jwt.ExpiredSignatureError) and ValueError
"Invalid token" (from jwt.InvalidTokenError). -/
inductive TokenError where
  | expired
  | invalid
deriving Repr, DecidableEq

/-- Embeds verify_token (app/core/security.py lines 33-41): jwt.decode checks
the signature, then rejects a token whose exp has passed. -/
def verify_token (t : Token) (now : Nat) : Except TokenError TokenClaims :=
  match t with
  | .malformed => .error .invalid
  | .valid c => if c.exp ≤ now then .error .expired else .ok c

/-- Embeds create_access_token (app/core/security.py lines 19-24). -/
def create_access_token (uid : Nat) (sid jti : String) (now : Nat) : Token :=
  .valid { user_id := uid, session_id := sid, jti := jti, type := "access",
           exp := now + ACCESS_TOKEN_EXPIRE_MINUTES * 60 }

/-- Embeds create_refresh_token (app/core/security.py lines 26-31). -/
def create_refresh_token (uid : Nat) (sid jti : String) (now : Nat) : Token :=
  .valid { user_id := uid, session_id := sid, jti := jti, type := "refresh",
           exp := now + REFRESH_TOKEN_EXPIRE_DAYS * 24 * 60 * 60 }

/-- Embeds hash_password (app/core/security.py lines 10-13).  bcrypt is an
external library; it is modelled as an injective tagging so that
verify_password succeeds exactly on the original password. -/
def hash_password (password : String) : String :=
  "bcrypt$" ++ password

/-- Embeds verify_password (app/core/security.py lines 15-17). -/
def verify_password (password hashed : String) : Bool :=
  hash_password password == hashed

/-- A row of the users table, restricted to the columns the authentication
path reads (app/crud/user.py get_by_username). -/
structure UserRow where
  id : Nat
  username : String
  email : String
  password_hash : String
  is_active : Bool
deriving Repr, DecidableEq

/-- The user record returned by authenticate_user after user.pop of the
password_hash key (app/services/auth_service.py line 74). -/
structure PublicUser where
  id : Nat
  username : String
  email : String
  is_active : Bool
deriving Repr, DecidableEq

/-- Drops the password_hash column, embedding user.pop at
app/services/auth_service.py line 74. -/
def strip_password (u : UserRow) : PublicUser :=
  { id := u.id, username := u.username, email := u.email, is_active := u.is_active }

/-- A row of the user_sessions table (app/crud/session.py). -/
structure SessionRow where
  session_id : String
  user_id : Nat
  access_token_jti : String
  refresh_token_jti : String
  device_info : String
  ip_address : String
  user_agent : String
  created_at : Nat
  last_activity : Nat
  expires_at : Nat
  status : String
  revoked_at : Option Nat
  revoked_reason : Option String
deriving Repr, DecidableEq

/-- The MySQL database state: the users and user_sessions tables. -/
structure Database where
  users : List UserRow
  sessions : List SessionRow
deriving Repr, DecidableEq

/-- The JSON object cached under session:{session_id}
(app/services/auth_service.py lines 199-205). -/
structure SessionCacheData where
  user_id : Nat
  last_activity : Nat
  access_jti : String
  refresh_jti : String
  status : String
deriving Repr, DecidableEq

/-- The Redis keyspace used by AuthService: blacklist:{jti} entries (value =
reason string), session:{session_id} entries, user_activity:{user_id} entries
(value = last-activity timestamp) and metric counters. -/
structure CacheState where
  blacklist : List (String × String)
  sessions : List (String × SessionCacheData)
  activity : List (Nat × Nat)
  metrics : List (String × Nat)
deriving Repr, DecidableEq

/-- The full cross-request state: Redis cache plus MySQL database. -/
structure SysState where
  cache : CacheState
  db : Database
deriving Repr, DecidableEq

/-- Fault-injection points where a backing-store operation fails.  Each Bool
makes the corresponding SessionCRUD method take its except-branch (which logs
and returns None/False/0 without raising).  raise-mode faults model an
exception escaping _update_session_tokens, which its except-branch re-raises
(app/services/auth_service.py lines 664-666). -/
inductive UpdateFault where
  | ok
  | raiseAtStart
  | raiseAfterCache
deriving Repr, DecidableEq

/-- Fault configuration for one execution (see UpdateFault). -/
structure Faults where
  dbCreateFails : Bool
  dbUpdateFails : Bool
  dbRevokeFails : Bool
  dbActivityFails : Bool
  updateTokens : UpdateFault
deriving Repr, DecidableEq

/-- The fault-free configuration. -/
def noFaults : Faults :=
  { dbCreateFails := false, dbUpdateFails := false, dbRevokeFails := false,
    dbActivityFails := false, updateTokens := .ok }

/-- Expected authentication failures raised by AuthService
(app/core/exceptions.py).  Note that the code defines no TokenInvalid and no
InternalStoreError exception class. -/
inductive AuthError where
  | invalidCredentials
  | tokenExpired
  | tokenRevoked
  | sessionExpired
  | userNotFound
deriving Repr, DecidableEq

/- ============ SessionCRUD (app/crud/session.py) ============ -/

/-- Embeds SessionCRUD.get (app/crud/session.py lines 21-44): a SELECT with an
inner JOIN on users, so a session whose user row is missing is not returned. -/
def db_get_session (db : Database) (sid : String) : Option SessionRow :=
  match db.sessions.find? (fun s => s.session_id == sid) with
  | none => none
  | some s => if db.users.any (fun u => u.id == s.user_id) then some s else none

/-- Embeds SessionCRUD.get_by_user (app/crud/session.py lines 46-76): sessions
of a user with the given status, inner-joined on users.  The SQL ORDER BY
last_activity is omitted; no property below depends on result order. -/
def db_get_by_user (db : Database) (uid : Nat) (status : String) : List SessionRow :=
  db.sessions.filter (fun s =>
    s.user_id == uid && s.status == status && db.users.any (fun u => u.id == s.user_id))

/-- Embeds SessionCRUD.create's INSERT (app/crud/session.py lines 131-157). -/
def db_create_session (db : Database) (row : SessionRow) : Database :=
  { db with sessions := db.sessions ++ [row] }

/-- Embeds the UPDATE of SessionCRUD.update as invoked by
_update_session_tokens (app/crud/session.py lines 159-195): sets the two jtis,
last_activity and expires_at on the row with this session_id. -/
def db_update_session_tokens (db : Database) (sid ajti rjti : String)
    (now expires_at : Nat) : Database :=
  { db with sessions := db.sessions.map (fun s =>
      if s.session_id == sid then
        { s with access_token_jti := ajti, refresh_token_jti := rjti,
                 last_activity := now, expires_at := expires_at }
      else s) }

/-- The WHERE clause of SessionCRUD.revoke_session's UPDATE:
session_id = sid AND status = 'active'. -/
def revoke_hits (sid : String) (s : SessionRow) : Bool :=
  s.session_id == sid && s.status == "active"

/-- The SET clause of the revocation UPDATE, applied to the rows the WHERE
clause selects. -/
def revoke_row (sid reason : String) (now : Nat) (s : SessionRow) : SessionRow :=
  if revoke_hits sid s then
    { s with status := "revoked", revoked_at := some now,
             revoked_reason := some reason }
  else s

/-- Embeds SessionCRUD.revoke_session (app/crud/session.py lines 236-252):
UPDATE ... WHERE session_id = sid AND status = 'active'; returns rowcount > 0. -/
def db_revoke_session (db : Database) (sid reason : String) (now : Nat) :
    Bool × Database :=
  (db.sessions.any (revoke_hits sid),
   { db with sessions := db.sessions.map (revoke_row sid reason now) })

/-- The WHERE clause of SessionCRUD.revoke_user_sessions' UPDATE.  The
exclusion clause is only added when exclude_session is truthy in Python,
i.e. not None and not the empty string. -/
def bulk_revoke_hits (uid : Nat) (exclude : Option String) (s : SessionRow) : Bool :=
  let excluded :=
    match exclude with
    | none => false
    | some ex => !(ex == "") && s.session_id == ex
  s.user_id == uid && s.status == "active" && !excluded

/-- The SET clause of the bulk-revocation UPDATE. -/
def bulk_revoke_row (uid : Nat) (reason : String) (exclude : Option String)
    (now : Nat) (s : SessionRow) : SessionRow :=
  if bulk_revoke_hits uid exclude s then
    { s with status := "revoked", revoked_at := some now,
             revoked_reason := some reason }
  else s

/-- Embeds SessionCRUD.revoke_user_sessions (app/crud/session.py lines
254-283): bulk UPDATE returning the rowcount. -/
def db_revoke_user_sessions (db : Database) (uid : Nat) (reason : String)
    (exclude : Option String) (now : Nat) : Nat × Database :=
  (db.sessions.countP (fun s => bulk_revoke_hits uid exclude s),
   { db with sessions := db.sessions.map (bulk_revoke_row uid reason exclude now) })

/-- Embeds SessionCRUD.update_last_activity (app/crud/session.py lines
444-458): UPDATE last_activity WHERE session_id = sid AND status = 'active'. -/
def db_update_last_activity (db : Database) (sid : String) (now : Nat) : Database :=
  { db with sessions := db.sessions.map (fun s =>
      if s.session_id == sid && s.status == "active" then
        { s with last_activity := now }
      else s) }

/- ============ UserCRUD (app/crud/user.py) ============ -/

/-- Embeds Python str.lower as character-wise lowering (kernel-computable
model of the ASCII case folding the code relies on). -/
def py_lower (s : String) : String :=
  String.mk (s.data.map Char.toLower)

/-- Embeds Python str.strip: drops leading and trailing whitespace. -/
def py_strip (s : String) : String :=
  String.mk (((s.data.dropWhile Char.isWhitespace).reverse.dropWhile
    Char.isWhitespace).reverse)

/-- The collation normalization username.lower().strip() applied by
UserCRUD.get_by_username (app/crud/user.py line 46). -/
def normalize_username (s : String) : String :=
  py_strip (py_lower s)

/-- Embeds UserCRUD.get_by_username (app/crud/user.py lines 36-50): the SQL
compares against username.lower().strip() and requires is_active = TRUE. -/
def get_by_username (users : List UserRow) (username : String) : Option UserRow :=
  users.find? (fun u => u.username == normalize_username username && u.is_active)

/- ============ AuthService (app/services/auth_service.py) ============ -/

/-- Embeds AuthService.authenticate_user (app/services/auth_service.py lines
41-81): username lookup, password verification, is_active re-check, then the
password digest is stripped.  Every failure returns None; the surrounding
try/except also maps unexpected errors to None, so the function is total. -/
def authenticate_user (users : List UserRow) (username password : String) :
    Option PublicUser :=
  match get_by_username users username with
  | none => none
  | some user =>
    if !(verify_password password user.password_hash) then none
    else if !user.is_active then none
    else some (strip_password user)

/-- Embeds _is_user_inactive (app/services/auth_service.py lines 545-578):
inactive when the user_activity cache key is absent, or when more than
INACTIVITY_TIMEOUT_SECONDS have elapsed since its timestamp. -/
def is_user_inactive (uid : Nat) (now : Nat) (st : SysState) : Bool :=
  match aget st.cache.activity uid with
  | none => true
  | some t => now - t > INACTIVITY_TIMEOUT_SECONDS

/-- Bumps a metric counter, embedding redis_client.increment. -/
def incr_metric (m : List (String × Nat)) (k : String) : List (String × Nat) :=
  aset m k ((aget m k).getD 0 + 1)

/-- Embeds _update_user_activity (app/services/auth_service.py lines 580-612):
rewrite the user_activity key, refresh last_activity in the session cache
entry when present, then update MySQL; a store fault is swallowed by the
except-branches (both here and inside update_last_activity). -/
def update_user_activity (uid : Nat) (sid : String) (now : Nat) (f : Faults)
    (st : SysState) : SysState :=
  let cache := { st.cache with activity := aset st.cache.activity uid now }
  let cache :=
    match aget cache.sessions sid with
    | none => cache
    | some sd =>
      { cache with sessions := aset cache.sessions sid ({ sd with last_activity := now }) }
  let db := if f.dbActivityFails then st.db else db_update_last_activity st.db sid now
  { cache := cache, db := db }

/-- Embeds _update_session_tokens (app/services/auth_service.py lines
614-666): write the new session cache entry, refresh the user_activity key,
then UPDATE the MySQL row.  Returns false when an exception escapes (the
except-branch re-raises); a plain MySQL statement failure is swallowed inside
SessionCRUD.update and leaves the database unchanged without raising. -/
def update_session_tokens (sid : String) (uid : Nat) (ajti rjti : String)
    (now : Nat) (f : Faults) (st : SysState) : Bool × SysState :=
  if f.updateTokens == .raiseAtStart then (false, st)
  else
    let sd : SessionCacheData :=
      { user_id := uid, last_activity := now, access_jti := ajti,
        refresh_jti := rjti, status := "active" }
    let cache := { st.cache with sessions := aset st.cache.sessions sid sd }
    let cache := { cache with activity := aset cache.activity uid now }
    let st1 : SysState := { cache := cache, db := st.db }
    if f.updateTokens == .raiseAfterCache then (false, st1)
    else
      let db := if f.dbUpdateFails then st1.db
                else db_update_session_tokens st1.db sid ajti rjti now
                       (now + ACCESS_TOKEN_EXPIRE_MINUTES * 60)
      (true, { st1 with db := db })

/-- The dict returned by create_session (app/services/auth_service.py lines
240-245). -/
structure CreateSessionResult where
  access_token : Token
  refresh_token : Token
  session_id : String
  expires_in : Nat
deriving Repr, DecidableEq

/-- Embeds AuthService.create_session (app/services/auth_service.py lines
153-249).  The generated ids (session id and the two jtis) are passed in as
parameters standing for the generate_session_id / generate_jti outputs.  Note
SessionCRUD.create swallows a MySQL failure and returns None, which this
caller ignores, so the function always returns the token pair. -/
def create_session (uid : Nat) (sid ajti rjti : String)
    (device ip ua : String) (now : Nat) (f : Faults) (st : SysState) :
    CreateSessionResult × SysState :=
  let access_token := create_access_token uid sid ajti now
  let refresh_token := create_refresh_token uid sid rjti now
  let expires_at := now + ACCESS_TOKEN_EXPIRE_MINUTES * 60
  let sd : SessionCacheData :=
    { user_id := uid, last_activity := now, access_jti := ajti,
      refresh_jti := rjti, status := "active" }
  let row : SessionRow :=
    { session_id := sid, user_id := uid, access_token_jti := ajti,
      refresh_token_jti := rjti, device_info := device,
      ip_address := ip, user_agent := ua, created_at := now,
      last_activity := now, expires_at := expires_at,
      status := "active", revoked_at := none, revoked_reason := none }
  let cache := { st.cache with sessions := aset st.cache.sessions sid sd }
  let cache := { cache with activity := aset cache.activity uid now }
  let db := if f.dbCreateFails then st.db else db_create_session st.db row
  let cache := { cache with metrics := incr_metric cache.metrics "metric:sessions_created" }
  ({ access_token := access_token, refresh_token := refresh_token,
     session_id := sid, expires_in := ACCESS_TOKEN_EXPIRE_MINUTES * 60 },
   { cache := cache, db := db })

/-- Embeds AuthService.revoke_session (app/services/auth_service.py lines
333-384): look up the session (miss, including a missing joined user, gives
false), blacklist both jtis, evict the session cache entry and the user's
activity marker, UPDATE the MySQL row (return value ignored), bump the
metric, return true. -/
def revoke_session (sid reason : String) (now : Nat) (f : Faults)
    (st : SysState) : Bool × SysState :=
  match db_get_session st.db sid with
  | none => (false, st)
  | some session =>
    let cache := { st.cache with
      blacklist := aset st.cache.blacklist session.access_token_jti reason }
    let cache := { cache with
      blacklist := aset cache.blacklist session.refresh_token_jti reason }
    let cache := { cache with sessions := adel cache.sessions sid }
    let cache := { cache with activity := adel cache.activity session.user_id }
    let db := if f.dbRevokeFails then st.db
              else (db_revoke_session st.db sid reason now).2
    let cache := { cache with metrics := incr_metric cache.metrics "metric:sessions_revoked" }
    (true, { cache := cache, db := db })

/-- Embeds AuthService.revoke_all_user_sessions (app/services/auth_service.py
lines 386-448): enumerate the user's active sessions from MySQL, blacklist
both jtis and evict the cache entry of every non-excluded one, evict the
user's activity marker, bulk-UPDATE MySQL, and return the MySQL rowcount.
Python's truthiness test means an empty-string exclusion excludes nothing. -/
def revoke_all_user_sessions (uid : Nat) (reason : String)
    (exclude : Option String) (now : Nat) (f : Faults) (st : SysState) :
    Nat × SysState :=
  let sessions := db_get_by_user st.db uid "active"
  let cache := sessions.foldl (fun c s =>
      if (match exclude with
          | none => false
          | some ex => !(ex == "") && s.session_id == ex) then c
      else
        let c := { c with blacklist := aset c.blacklist s.access_token_jti reason }
        let c := { c with blacklist := aset c.blacklist s.refresh_token_jti reason }
        { c with sessions := adel c.sessions s.session_id }) st.cache
  let cache := { cache with activity := adel cache.activity uid }
  let (cnt, db) := if f.dbRevokeFails then (0, st.db)
                   else db_revoke_user_sessions st.db uid reason exclude now
  let cache := { cache with metrics := incr_metric cache.metrics "metric:bulk_sessions_revoked" }
  (cnt, { cache := cache, db := db })

/-- Embeds AuthService.verify_access_token (app/services/auth_service.py lines
450-491).  The except-branch at lines 489-491 maps every unexpected error —
in particular the ValueError raised by verify_token for an invalid signature —
to TokenExpiredException. -/
def verify_access_token (token : Token) (now : Nat) (f : Faults)
    (st : SysState) : Except AuthError TokenClaims × SysState :=
  match verify_token token now with
  | .error _ => (.error .tokenExpired, st)
  | .ok payload =>
    if payload.type != "access" then (.error .tokenExpired, st)
    else if (aget st.cache.blacklist payload.jti).isSome then (.error .tokenRevoked, st)
    else
      match aget st.cache.sessions payload.session_id with
      | none => (.error .sessionExpired, st)
      | some _ =>
        (.ok payload, update_user_activity payload.user_id payload.session_id now f st)

/-- The dict returned by refresh_session (app/services/auth_service.py lines
321-325). -/
structure TokenPair where
  access_token : Token
  refresh_token : Token
  expires_in : Nat
deriving Repr, DecidableEq

/-- Embeds AuthService.refresh_session (app/services/auth_service.py lines
251-331): decode, check type, check the blacklist, run the lazy inactivity
check (revoking on inactivity), blacklist the presented jti with reason
"refreshed", mint the new pair, commit via _update_session_tokens, bump the
metric.  The new jtis are parameters standing for the generate_jti outputs.
An exception escaping after the checks is mapped to TokenExpiredException by
the catch-all at lines 329-331. -/
def refresh_session (token : Token) (new_ajti new_rjti : String) (now : Nat)
    (f : Faults) (st : SysState) : Except AuthError TokenPair × SysState :=
  match verify_token token now with
  | .error _ => (.error .tokenExpired, st)
  | .ok payload =>
    if payload.type != "refresh" then (.error .tokenExpired, st)
    else if (aget st.cache.blacklist payload.jti).isSome then (.error .tokenRevoked, st)
    else if is_user_inactive payload.user_id now st then
      let (_, st1) := revoke_session payload.session_id "inactivity_detected" now f st
      (.error .sessionExpired, st1)
    else
      let st1 : SysState := { st with cache := { st.cache with
          blacklist := aset st.cache.blacklist payload.jti "refreshed" } }
      let new_access := create_access_token payload.user_id payload.session_id new_ajti now
      let new_refresh := create_refresh_token payload.user_id payload.session_id new_rjti now
      match update_session_tokens payload.session_id payload.user_id new_ajti
              new_rjti now f st1 with
      | (false, st2) => (.error .tokenExpired, st2)
      | (true, st2) =>
        let st3 : SysState := { st2 with cache := { st2.cache with
            metrics := incr_metric st2.cache.metrics "metric:tokens_refreshed" } }
        (.ok { access_token := new_access, refresh_token := new_refresh,
               expires_in := ACCESS_TOKEN_EXPIRE_MINUTES * 60 }, st3)

/- ============ Helper lemmas about the keyed-store model ============ -/

theorem aget_aset_self {κ α : Type} [BEq κ] [LawfulBEq κ]
    (m : List (κ × α)) (k : κ) (v : α) : aget (aset m k v) k = some v := by
  simp [aget, aset]

theorem aget_filter_out {κ α : Type} [BEq κ] [LawfulBEq κ]
    (m : List (κ × α)) (k k' : κ) (h : k ≠ k') :
    aget (m.filter (fun p => !(p.1 == k))) k' = aget m k' := by
  induction m with
  | nil => rfl
  | cons hd tl ih =>
    by_cases hh : hd.1 = k
    · have h1 : (hd.1 == k) = true := by simp [hh]
      have h2 : (hd.1 == k') = false := by
        simp [hh]
        exact h
      simp [aget, List.filter, h1, List.find?, h2] at *
      exact ih
    · have h1 : (hd.1 == k) = false := by simp [hh]
      by_cases hk : hd.1 = k'
      · have h2 : (hd.1 == k') = true := by simp [hk]
        simp [aget, List.filter, h1, List.find?, h2]
      · have h2 : (hd.1 == k') = false := by simp [hk]
        simp [aget, List.filter, h1, List.find?, h2] at *
        exact ih

theorem aget_aset_ne {κ α : Type} [BEq κ] [LawfulBEq κ]
    (m : List (κ × α)) (k k' : κ) (v : α) (h : k ≠ k') :
    aget (aset m k v) k' = aget m k' := by
  have h2 : (k == k') = false := by simp [h]
  simp only [aset, aget, List.find?, h2]
  exact aget_filter_out m k k' h

theorem aget_adel_self {κ α : Type} [BEq κ] [LawfulBEq κ]
    (m : List (κ × α)) (k : κ) : aget (adel m k) k = none := by
  induction m with
  | nil => rfl
  | cons hd tl ih =>
    by_cases hh : hd.1 = k
    · have h1 : (hd.1 == k) = true := by simp [hh]
      simp [adel, aget, List.filter, h1] at *
    · have h1 : (hd.1 == k) = false := by simp [hh]
      simp [adel, aget, List.filter, List.find?, h1] at *

theorem aget_adel_ne {κ α : Type} [BEq κ] [LawfulBEq κ]
    (m : List (κ × α)) (k k' : κ) (h : k ≠ k') :
    aget (adel m k) k' = aget m k' := by
  exact aget_filter_out m k k' h

theorem aget_aset_isSome {κ α : Type} [BEq κ] [LawfulBEq κ]
    (m : List (κ × α)) (k k' : κ) (v : α) (h : (aget m k').isSome = true) :
    (aget (aset m k v) k').isSome = true := by
  by_cases hk : k = k'
  · subst hk
    rw [aget_aset_self]
    rfl
  · rw [aget_aset_ne m k k' v hk]
    exact h

/-- Revoking rewrites only status/revocation fields, never the key. -/
theorem revoke_row_session_id (sid reason : String) (now : Nat) (s : SessionRow) :
    (revoke_row sid reason now s).session_id = s.session_id := by
  unfold revoke_row
  by_cases h : revoke_hits sid s = true
  · simp [h]
  · simp [h]

/-- After the revocation UPDATE ran once, no row matches its WHERE clause,
so a second UPDATE affects zero rows. -/
theorem revoke_row_not_hit (sid reason : String) (now : Nat) (s : SessionRow) :
    revoke_hits sid (revoke_row sid reason now s) = false := by
  unfold revoke_row revoke_hits
  by_cases h : (s.session_id == sid && s.status == "active") = true
  · simp [revoke_hits, h]
  · simp [revoke_hits, h]

theorem any_revoke_hits_map (sid reason : String) (now : Nat)
    (l : List SessionRow) :
    (l.map (revoke_row sid reason now)).any (revoke_hits sid) = false := by
  induction l with
  | nil => rfl
  | cons hd tl ih =>
    simp only [List.map, List.any_cons, revoke_row_not_hit, Bool.false_or]
    exact ih

/-- The first row found for a session id after the revocation UPDATE is the
rewritten image of the first row found before it. -/
theorem find_map_revoke (sid reason : String) (now : Nat)
    (l : List SessionRow) (row : SessionRow)
    (h : l.find? (fun s => s.session_id == sid) = some row) :
    (l.map (revoke_row sid reason now)).find? (fun s => s.session_id == sid) =
      some (revoke_row sid reason now row) := by
  induction l with
  | nil => simp at h
  | cons hd tl ih =>
    by_cases hh : hd.session_id = sid
    · have h1 : (hd.session_id == sid) = true := by simp [hh]
      have hrow : hd = row := by
        simp [List.find?, h1] at h
        exact h
      subst hrow
      have h2 : ((revoke_row sid reason now hd).session_id == sid) = true := by
        rw [revoke_row_session_id]
        exact h1
      simp [List.map, List.find?, h2]
    · have h1 : (hd.session_id == sid) = false := by simp [hh]
      have h2 : ((revoke_row sid reason now hd).session_id == sid) = false := by
        rw [revoke_row_session_id]
        exact h1
      simp only [List.find?, h1] at h
      simp only [List.map, List.find?, h2]
      exact ih h

/-- Inverts a successful SessionCRUD.get: the row was found and its user row
exists (the SELECT inner-joins users). -/
theorem db_get_session_inv (db : Database) (sid : String) (row : SessionRow)
    (h : db_get_session db sid = some row) :
    db.sessions.find? (fun s => s.session_id == sid) = some row ∧
    db.users.any (fun u => u.id == row.user_id) = true := by
  unfold db_get_session at h
  cases hf : db.sessions.find? (fun s => s.session_id == sid) with
  | none => rw [hf] at h; simp at h
  | some s =>
    rw [hf] at h
    by_cases hu : db.users.any (fun u => u.id == s.user_id) = true
    · simp [hu] at h
      subst h
      exact ⟨rfl, hu⟩
    · simp [hu] at h

theorem revoke_row_user_id (sid reason : String) (now : Nat) (s : SessionRow) :
    (revoke_row sid reason now s).user_id = s.user_id := by
  unfold revoke_row
  by_cases h : revoke_hits sid s = true
  · simp [h]
  · simp [h]

/-- Characterizes AuthService.revoke_session when the session lookup
succeeds: it returns true and performs the four cache writes and the guarded
durable UPDATE. -/
theorem revoke_session_found (sid reason : String) (now : Nat) (f : Faults)
    (st : SysState) (session : SessionRow)
    (hget : db_get_session st.db sid = some session) :
    revoke_session sid reason now f st =
      (true,
       { cache := { blacklist := aset (aset st.cache.blacklist
                      session.access_token_jti reason)
                      session.refresh_token_jti reason,
                    sessions := adel st.cache.sessions sid,
                    activity := adel st.cache.activity session.user_id,
                    metrics := incr_metric st.cache.metrics
                      "metric:sessions_revoked" },
         db := if f.dbRevokeFails then st.db
               else (db_revoke_session st.db sid reason now).2 }) := by
  unfold revoke_session
  rw [hget]

/- ============ Concrete fixtures used by witnesses ============ -/

/-- The empty system state. -/
def st_empty : SysState :=
  { cache := { blacklist := [], sessions := [], activity := [], metrics := [] },
    db := { users := [], sessions := [] } }

/-- A sample user row. -/
def exUser : UserRow :=
  { id := 1, username := "alice", email := "alice@example.com",
    password_hash := hash_password "pw", is_active := true }

/-- A sample active session row for exUser. -/
def exRow : SessionRow :=
  { session_id := "A", user_id := 1, access_token_jti := "aj0",
    refresh_token_jti := "rj0", device_info := "{}", ip_address := "1.2.3.4",
    user_agent := "ua", created_at := 0, last_activity := 0, expires_at := 1800,
    status := "active", revoked_at := none, revoked_reason := none }

/-- The session cache entry matching exRow. -/
def exSd : SessionCacheData :=
  { user_id := 1, last_activity := 0, access_jti := "aj0", refresh_jti := "rj0",
    status := "active" }

/-- A system state holding one live session for exUser. -/
def exSt : SysState :=
  { cache := { blacklist := [], sessions := [("A", exSd)], activity := [(1, 0)],
               metrics := [] },
    db := { users := [exUser], sessions := [exRow] } }

/-- The refresh token of the live session in exSt. -/
def exR0 : Token := create_refresh_token 1 "A" "rj0" 0

/-- The decoded claims of exR0. -/
def exR0c : TokenClaims :=
  { user_id := 1, session_id := "A", jti := "rj0", type := "refresh",
    exp := 7 * 24 * 60 * 60 }

/-- The access token of the live session in exSt. -/
def exA0 : Token := create_access_token 1 "A" "aj0" 0

/- ============ Claim theorems ============ -/

/-- C10: a token that decodes with a valid signature and unexpired exp but
whose type tag does not match the operation (not "access" for
verify_access_token, not "refresh" for refresh_session) makes the operation
raise TokenExpired — not TokenInvalid — with the state unchanged (no cache or
durable-store writes happen before the raise). -/
theorem C10_wrong_type_rejected (t : Token) (c : TokenClaims) (aj rj : String)
    (now : Nat) (f : Faults) (st : SysState)
    (h : verify_token t now = Except.ok c) :
    (c.type ≠ "access" →
      verify_access_token t now f st = (Except.error AuthError.tokenExpired, st)) ∧
    (c.type ≠ "refresh" →
      refresh_session t aj rj now f st = (Except.error AuthError.tokenExpired, st)) := by
  constructor
  · intro hne
    unfold verify_access_token
    rw [h]
    have hb : (c.type != "access") = true := by simp [hne]
    simp [hb]
  · intro hne
    unfold refresh_session
    rw [h]
    have hb : (c.type != "refresh") = true := by simp [hne]
    simp [hb]

/-- Witness for C10 at concrete inputs: a refresh-typed token fed to
verify_access_token and an access-typed token fed to refresh_session both
yield TokenExpired with the state untouched. -/
theorem C10_wrong_type_rejected_witness :
    verify_access_token exR0 100 noFaults exSt =
      (Except.error AuthError.tokenExpired, exSt) ∧
    refresh_session exA0 "x" "y" 100 noFaults exSt =
      (Except.error AuthError.tokenExpired, exSt) :=
  ⟨(C10_wrong_type_rejected exR0 _ "x" "y" 100 noFaults exSt rfl).1 (by decide),
   (C10_wrong_type_rejected exA0 _ "x" "y" 100 noFaults exSt rfl).2 (by decide)⟩

/-- C6 counterexample: the codec reports an invalid-signature/format failure
as its own kind (ValueError "Invalid token"), yet verify_access_token and
refresh_session surface exactly that failure as TokenExpired — not as a
TokenInvalid kind, which the service error taxonomy does not even contain.
So it is false that every token-verification failure surfaces as the
appropriate one of the two distinct kinds. -/
theorem C6_counterexample :
    verify_token Token.malformed 0 = Except.error TokenError.invalid ∧
    (verify_access_token Token.malformed 0 noFaults st_empty).1 =
      Except.error AuthError.tokenExpired ∧
    (refresh_session Token.malformed "a" "r" 0 noFaults st_empty).1 =
      Except.error AuthError.tokenExpired :=
  ⟨rfl, rfl, rfl⟩

/-- C6 amended: the codec itself distinguishes the two failures (expired exp
versus bad signature/format), but every codec failure — of either kind —
surfaces from verify_access_token and refresh_session as TokenExpired, with
the state unchanged; no TokenInvalid kind ever reaches the caller. -/
theorem C6_token_error_collapse (t : Token) (c : TokenClaims) (e : TokenError)
    (aj rj : String) (now : Nat) (f : Faults) (st : SysState) :
    verify_token Token.malformed now = Except.error TokenError.invalid ∧
    (c.exp ≤ now → verify_token (Token.valid c) now = Except.error TokenError.expired) ∧
    (verify_token t now = Except.error e →
      verify_access_token t now f st = (Except.error AuthError.tokenExpired, st) ∧
      refresh_session t aj rj now f st = (Except.error AuthError.tokenExpired, st)) := by
  refine ⟨rfl, ?_, ?_⟩
  · intro hle
    simp [verify_token, hle]
  · intro herr
    constructor
    · unfold verify_access_token
      rw [herr]
    · unfold refresh_session
      rw [herr]

/-- Claims of a token already expired at time 50, for the C6 witness. -/
def cExp : TokenClaims :=
  { user_id := 1, session_id := "A", jti := "j", type := "refresh", exp := 50 }

/-- Witness for C6's amended statement: an expired token and a malformed
token, both fed to the service operations at concrete inputs. -/
theorem C6_token_error_collapse_witness :
    verify_token (Token.valid cExp) 50 = Except.error TokenError.expired ∧
    verify_access_token Token.malformed 5 noFaults st_empty =
      (Except.error AuthError.tokenExpired, st_empty) :=
  ⟨(C6_token_error_collapse Token.malformed cExp TokenError.invalid "a" "r" 50
      noFaults st_empty).2.1 (by decide),
   ((C6_token_error_collapse Token.malformed cExp
      TokenError.invalid "a" "r" 5 noFaults st_empty).2.2 rfl).1⟩

/-- C9: the code contradicts the claim — a durable-store write that fails
after the cache write succeeded is silently swallowed, not surfaced.  With
the INSERT failing, create_session still returns the token pair and leaves a
cache-only session; with the UPDATE failing, refresh_session still returns
the new pair and leaves the old jtis in the durable row; with the
last_activity UPDATE failing, verify_access_token still returns the claims.
No InternalStoreError kind exists anywhere in the code. -/
theorem C9_db_failure_swallowed :
    ((create_session 1 "S" "aj" "rj" "{}" "1.2.3.4" "ua" 0
        { noFaults with dbCreateFails := true } st_empty).1.session_id = "S" ∧
     (aget (create_session 1 "S" "aj" "rj" "{}" "1.2.3.4" "ua" 0
        { noFaults with dbCreateFails := true } st_empty).2.cache.sessions "S").isSome
        = true ∧
     (create_session 1 "S" "aj" "rj" "{}" "1.2.3.4" "ua" 0
        { noFaults with dbCreateFails := true } st_empty).2.db.sessions = []) ∧
    ((refresh_session exR0 "aj1" "rj1" 100
        { noFaults with dbUpdateFails := true } exSt).1 =
      Except.ok { access_token := create_access_token 1 "A" "aj1" 100,
                  refresh_token := create_refresh_token 1 "A" "rj1" 100,
                  expires_in := 1800 } ∧
     (refresh_session exR0 "aj1" "rj1" 100
        { noFaults with dbUpdateFails := true } exSt).2.db = exSt.db) ∧
    ((verify_access_token exA0 100
        { noFaults with dbActivityFails := true } exSt).1 =
      Except.ok { user_id := 1, session_id := "A", jti := "aj0",
                  type := "access", exp := 1800 } ∧
     (verify_access_token exA0 100
        { noFaults with dbActivityFails := true } exSt).2.db = exSt.db) :=
  ⟨⟨rfl, rfl, rfl⟩, ⟨rfl, rfl⟩, ⟨rfl, rfl⟩⟩

/-- C3: verify_access_token rejects with TokenRevoked whenever the decoded
access token's jti is deny-listed (regardless of the session cache, since the
deny-list is checked first); rejects with SessionExpired whenever the jti is
not deny-listed but no session cache entry exists for its session id; and on
success returns the decoded claims after refreshing the user's activity
marker and the cached session's last_activity to the current time. -/
theorem C3_verify_access_token_spec (t : Token) (c : TokenClaims) (now : Nat)
    (f : Faults) (st : SysState)
    (hdec : verify_token t now = Except.ok c)
    (htype : c.type = "access") :
    ((aget st.cache.blacklist c.jti).isSome = true →
      verify_access_token t now f st = (Except.error AuthError.tokenRevoked, st)) ∧
    (aget st.cache.blacklist c.jti = none →
      aget st.cache.sessions c.session_id = none →
      verify_access_token t now f st = (Except.error AuthError.sessionExpired, st)) ∧
    (∀ sd : SessionCacheData, aget st.cache.blacklist c.jti = none →
      aget st.cache.sessions c.session_id = some sd →
      (verify_access_token t now f st).1 = Except.ok c ∧
      aget (verify_access_token t now f st).2.cache.activity c.user_id = some now ∧
      aget (verify_access_token t now f st).2.cache.sessions c.session_id =
        some { sd with last_activity := now }) := by
  have htb : (c.type != "access") = false := by simp [htype]
  refine ⟨?_, ?_, ?_⟩
  · intro hbl
    unfold verify_access_token
    rw [hdec]
    simp [htb, hbl]
  · intro hbl hses
    unfold verify_access_token
    rw [hdec]
    simp [htb, hbl, hses]
  · intro sd hbl hses
    unfold verify_access_token
    rw [hdec]
    simp [htb, hbl, hses, update_user_activity, aget_aset_self]

/-- Witness for C3 at the concrete live state exSt: the access token
verifies, and both activity timestamps move to the call time. -/
theorem C3_verify_access_token_spec_witness :
    (verify_access_token exA0 100 noFaults exSt).1 =
      Except.ok { user_id := 1, session_id := "A", jti := "aj0",
                  type := "access", exp := 1800 } ∧
    aget (verify_access_token exA0 100 noFaults exSt).2.cache.activity 1 = some 100 ∧
    aget (verify_access_token exA0 100 noFaults exSt).2.cache.sessions "A" =
      some { exSd with last_activity := 100 } :=
  (C3_verify_access_token_spec exA0 _ 100 noFaults exSt rfl rfl).2.2 exSd rfl rfl

/-- C2: in refresh_session the deny-list entry for the presented refresh
token's jti is written before the new tokens are issued or committed: for
every fault configuration — including an exception escaping
_update_session_tokens before or after its cache writes — the final state
already deny-lists the presented jti; when a post-deny-list step fails the
call returns an error, so no new pair is handed out, and when everything
succeeds the pair is returned with the old jti deny-listed.  At no point are
the old refresh token and a new pair simultaneously valid. -/
theorem C2_denylist_before_issue (c : TokenClaims) (aj rj : String) (now : Nat)
    (f : Faults) (st : SysState)
    (hexp : now < c.exp)
    (htype : c.type = "refresh")
    (hnotbl : aget st.cache.blacklist c.jti = none)
    (hactive : is_user_inactive c.user_id now st = false) :
    aget (refresh_session (Token.valid c) aj rj now f st).2.cache.blacklist c.jti
      = some "refreshed" ∧
    (f.updateTokens ≠ UpdateFault.ok →
      (refresh_session (Token.valid c) aj rj now f st).1 =
        Except.error AuthError.tokenExpired) ∧
    (f.updateTokens = UpdateFault.ok →
      (refresh_session (Token.valid c) aj rj now f st).1 =
        Except.ok { access_token := create_access_token c.user_id c.session_id aj now,
                    refresh_token := create_refresh_token c.user_id c.session_id rj now,
                    expires_in := ACCESS_TOKEN_EXPIRE_MINUTES * 60 }) := by
  have hns : ¬ (c.exp ≤ now) := Nat.not_le.mpr hexp
  have htb : (c.type != "refresh") = false := by simp [htype]
  have hbl : (aget st.cache.blacklist c.jti).isSome = false := by
    rw [hnotbl]
    rfl
  refine ⟨?_, ?_, ?_⟩
  · cases hft : f.updateTokens <;>
      simp [refresh_session, verify_token, hns, htb, hbl, hactive,
            update_session_tokens, hft, aget_aset_self]
  · intro hne
    cases hft : f.updateTokens
    · exact absurd hft hne
    · simp [refresh_session, verify_token, hns, htb, hbl, hactive,
            update_session_tokens, hft]
    · simp [refresh_session, verify_token, hns, htb, hbl, hactive,
            update_session_tokens, hft]
  · intro hok
    simp [refresh_session, verify_token, hns, htb, hbl, hactive,
          update_session_tokens, hok]

/-- Witness for C2 at the concrete live state exSt, with an exception
injected right after the deny-list write: the call fails but the presented
jti "rj0" is already deny-listed, and in the fault-free run the pair is
returned. -/
theorem C2_denylist_before_issue_witness :
    aget (refresh_session exR0 "aj1" "rj1" 100
        { noFaults with updateTokens := UpdateFault.raiseAtStart } exSt).2.cache.blacklist
        "rj0" = some "refreshed" ∧
    (refresh_session exR0 "aj1" "rj1" 100
        { noFaults with updateTokens := UpdateFault.raiseAtStart } exSt).1 =
      Except.error AuthError.tokenExpired ∧
    (refresh_session exR0 "aj1" "rj1" 100 noFaults exSt).1 =
      Except.ok { access_token := create_access_token 1 "A" "aj1" 100,
                  refresh_token := create_refresh_token 1 "A" "rj1" 100,
                  expires_in := ACCESS_TOKEN_EXPIRE_MINUTES * 60 } :=
  ⟨(C2_denylist_before_issue exR0c "aj1" "rj1" 100
      { noFaults with updateTokens := UpdateFault.raiseAtStart } exSt
      (by decide) rfl rfl (by decide)).1,
   (C2_denylist_before_issue exR0c "aj1" "rj1" 100
      { noFaults with updateTokens := UpdateFault.raiseAtStart } exSt
      (by decide) rfl rfl (by decide)).2.1 (by decide),
   (C2_denylist_before_issue exR0c "aj1" "rj1" 100 noFaults exSt
      (by decide) rfl rfl (by decide)).2.2 rfl⟩

/-- C4: when refresh_session is called with an otherwise valid,
non-deny-listed refresh token but the user's activity marker is absent or
older than INACTIVITY_TIMEOUT_SECONDS, the call revokes the session — the
durable row transitions to status "revoked" with reason
"inactivity_detected" — and fails with SessionExpired. -/
theorem C4_lazy_inactivity (c : TokenClaims) (aj rj : String) (now : Nat)
    (st : SysState) (row : SessionRow)
    (hexp : now < c.exp) (htype : c.type = "refresh")
    (hnotbl : aget st.cache.blacklist c.jti = none)
    (hinact : is_user_inactive c.user_id now st = true)
    (hget : db_get_session st.db c.session_id = some row)
    (hact : row.status = "active") :
    (refresh_session (Token.valid c) aj rj now noFaults st).1 =
      Except.error AuthError.sessionExpired ∧
    db_get_session (refresh_session (Token.valid c) aj rj now noFaults st).2.db
        c.session_id =
      some ({ row with status := "revoked", revoked_at := some now,
                       revoked_reason := some "inactivity_detected" }) := by
  have hns : ¬ (c.exp ≤ now) := Nat.not_le.mpr hexp
  have htb : (c.type != "refresh") = false := by simp [htype]
  have hbl : (aget st.cache.blacklist c.jti).isSome = false := by
    rw [hnotbl]
    rfl
  obtain ⟨hfind, husers⟩ := db_get_session_inv st.db c.session_id row hget
  have hpred0 := List.find?_some hfind
  have hpred : (row.session_id == c.session_id) = true := by simpa using hpred0
  have hhits : revoke_hits c.session_id row = true := by
    unfold revoke_hits
    rw [hpred]
    simp [hact]
  have hrw : revoke_row c.session_id "inactivity_detected" now row =
      ({ row with status := "revoked", revoked_at := some now,
                  revoked_reason := some "inactivity_detected" }) := by
    unfold revoke_row
    rw [hhits]
    simp
  have hfind2 := find_map_revoke c.session_id "inactivity_detected" now
    st.db.sessions row hfind
  have hrs := revoke_session_found c.session_id "inactivity_detected" now
    noFaults st row hget
  have hstep : (refresh_session (Token.valid c) aj rj now noFaults st).2 =
      (revoke_session c.session_id "inactivity_detected" now noFaults st).2 := by
    simp [refresh_session, verify_token, hns, htb, hbl, hinact]
  constructor
  · simp [refresh_session, verify_token, hns, htb, hbl, hinact,
          revoke_session, hget]
  · rw [hstep, hrs]
    simp [noFaults, db_revoke_session, db_get_session, hfind2, hrw, husers]

/-- A state like exSt whose user-activity marker is gone (e.g. its TTL
lapsed), so the lazy inactivity check fires. -/
def exStIdle : SysState :=
  { exSt with cache := { exSt.cache with activity := [] } }

/-- Witness for C4: in exStIdle, refreshing with the live refresh token fails
with SessionExpired and the durable row of session "A" is revoked with
reason "inactivity_detected". -/
theorem C4_lazy_inactivity_witness :
    (refresh_session exR0 "aj1" "rj1" 100 noFaults exStIdle).1 =
      Except.error AuthError.sessionExpired ∧
    db_get_session (refresh_session exR0 "aj1" "rj1" 100 noFaults exStIdle).2.db
        "A" =
      some ({ exRow with status := "revoked", revoked_at := some 100,
                         revoked_reason := some "inactivity_detected" }) :=
  C4_lazy_inactivity exR0c "aj1" "rj1" 100 exStIdle exRow
    (by decide) rfl rfl rfl rfl rfl

/-- With usernames unique, the SQL lookup of get_by_username finds exactly
the active user carrying the queried (normalized) username. -/
theorem find_user_eq (users : List UserRow) (n : String) (u : UserRow)
    (huniq : List.Pairwise (fun a b => a.username ≠ b.username) users)
    (hmem : u ∈ users) (hname : u.username = n) (hactive : u.is_active = true) :
    users.find? (fun v => v.username == n && v.is_active) = some u := by
  induction users with
  | nil => cases hmem
  | cons hd tl ih =>
    rcases List.mem_cons.1 hmem with heq | hmemtl
    · subst heq
      have hp : (u.username == n && u.is_active) = true := by simp [hname, hactive]
      simp [List.find?, hp]
    · have hne : hd.username ≠ n := by
        have h1 := (List.pairwise_cons.1 huniq).1 u hmemtl
        rw [hname] at h1
        exact h1
      have hf : (hd.username == n && hd.is_active) = false := by simp [hne]
      simp only [List.find?, hf]
      exact ih (List.pairwise_cons.1 huniq).2 hmemtl

/-- C5: when the collation-normalized username (lower-cased, trimmed) matches
an active user and the password verifies, authenticate_user returns the user
with the password digest stripped; for every other input — unknown username,
wrong password, or inactive account — it returns none.  The embedding is a
total function returning Option, mirroring how the Python code catches every
exception and returns None for bad credentials. -/
theorem C5_authenticate (users : List UserRow) (username password : String)
    (huniq : List.Pairwise (fun a b => a.username ≠ b.username) users) :
    (∀ u ∈ users, u.is_active = true → u.username = normalize_username username →
      verify_password password u.password_hash = true →
      authenticate_user users username password = some (strip_password u)) ∧
    ((¬ ∃ u ∈ users, u.is_active = true ∧ u.username = normalize_username username ∧
        verify_password password u.password_hash = true) →
      authenticate_user users username password = none) := by
  constructor
  · intro u hm ha hn hv
    unfold authenticate_user get_by_username
    rw [find_user_eq users (normalize_username username) u huniq hm hn ha]
    simp [hv, ha]
  · intro hno
    unfold authenticate_user get_by_username
    cases hf : users.find?
        (fun v => v.username == normalize_username username && v.is_active) with
    | none => rfl
    | some user =>
      have hp0 := List.find?_some hf
      have hsplit : user.username = normalize_username username ∧
          user.is_active = true := by simpa using hp0
      have hmem := List.mem_of_find?_eq_some hf
      have hvp : verify_password password user.password_hash = false := by
        cases hv : verify_password password user.password_hash with
        | false => rfl
        | true => exact absurd ⟨user, hmem, hsplit.2, hsplit.1, hv⟩ hno
      simp [hvp]

/-- Witness for C5: the fixture user logs in with a paddable, case-varying
username, and a wrong password yields none. -/
theorem C5_authenticate_witness :
    authenticate_user [exUser] "  Alice " "pw" = some (strip_password exUser) ∧
    authenticate_user [exUser] "alice" "wrong" = none :=
  ⟨(C5_authenticate [exUser] "  Alice " "pw" (by simp)).1 exUser (by simp)
      rfl (by decide) (by decide),
   (C5_authenticate [exUser] "alice" "wrong" (by simp)).2 (by decide)⟩

/-- C7 counterexample: in the state exSt holding one active session "A",
the second call to AuthService.revoke_session also returns true (the service
ignores the rowcount returned by the CRUD layer), refuting the claim that the
second call returns false. -/
theorem C7_counterexample :
    (revoke_session "A" "user_logout" 100 noFaults exSt).1 = true ∧
    (revoke_session "A" "user_logout" 100 noFaults
      (revoke_session "A" "user_logout" 100 noFaults exSt).2).1 = true := by
  constructor <;> decide

/-- AuthService.revoke_session returns true exactly when the session lookup
succeeds — independently of whether the durable UPDATE affected any row. -/
theorem revoke_session_fst (sid reason : String) (now : Nat) (f : Faults)
    (st : SysState) :
    (revoke_session sid reason now f st).1 = (db_get_session st.db sid).isSome := by
  unfold revoke_session
  cases h : db_get_session st.db sid <;> simp [h]

/-- C7 amended: calling AuthService.revoke_session twice on the same existing
session id returns true both times — the service ignores the CRUD rowcount —
while the underlying durable UPDATE (SessionCRUD.revoke_session) affects
rows only the first time, returning true then false; and after the first
call, verify_access_token on the session's old access token fails with
TokenRevoked. -/
theorem C7_amended_revocation (sid reason : String) (now now2 : Nat)
    (f : Faults) (st : SysState) (row : SessionRow) (c : TokenClaims)
    (hget : db_get_session st.db sid = some row)
    (hact : row.status = "active")
    (hjti : c.jti = row.access_token_jti)
    (htype : c.type = "access")
    (hexp : now2 < c.exp) :
    (revoke_session sid reason now f st).1 = true ∧
    (revoke_session sid reason now2 f
      (revoke_session sid reason now f st).2).1 = true ∧
    (db_revoke_session st.db sid reason now).1 = true ∧
    (db_revoke_session (db_revoke_session st.db sid reason now).2
      sid reason now2).1 = false ∧
    (verify_access_token (Token.valid c) now2 f
      (revoke_session sid reason now f st).2).1 =
      Except.error AuthError.tokenRevoked := by
  obtain ⟨hfind, husers⟩ := db_get_session_inv st.db sid row hget
  have hp0 := List.find?_some hfind
  have hsid : row.session_id = sid := by simpa using hp0
  have hhit : revoke_hits sid row = true := by
    unfold revoke_hits
    simp [hsid, hact]
  have hrs := revoke_session_found sid reason now f st row hget
  have hfind2 := find_map_revoke sid reason now st.db.sessions row hfind
  have hget2 : db_get_session (db_revoke_session st.db sid reason now).2 sid =
      some (revoke_row sid reason now row) := by
    unfold db_get_session db_revoke_session
    simp only
    rw [hfind2]
    simp [revoke_row_user_id, husers]
  refine ⟨?_, ?_, ?_, ?_, ?_⟩
  · rw [revoke_session_fst, hget]
    rfl
  · rw [revoke_session_fst, hrs]
    by_cases hdb : f.dbRevokeFails = true
    · simp [hdb, hget]
    · simp only [Bool.not_eq_true] at hdb
      simp [hdb, hget2]
  · unfold db_revoke_session
    exact List.any_eq_true.2 ⟨row, List.mem_of_find?_eq_some hfind, hhit⟩
  · simp only [db_revoke_session, List.any_eq_false]
    intro x hx
    obtain ⟨y, hy, rfl⟩ := List.mem_map.1 hx
    simpa using revoke_row_not_hit sid reason now y
  · rw [hrs]
    have hbl : (aget (aset (aset st.cache.blacklist row.access_token_jti reason)
        row.refresh_token_jti reason) c.jti).isSome = true := by
      rw [hjti]
      apply aget_aset_isSome
      rw [aget_aset_self]
      rfl
    have hns2 : ¬ (c.exp ≤ now2) := Nat.not_le.mpr hexp
    have htb : (c.type != "access") = false := by simp [htype]
    simp [verify_access_token, verify_token, hns2, htb, hbl]

/-- The decoded claims of exA0, the fixture access token. -/
def exA0c : TokenClaims :=
  { user_id := 1, session_id := "A", jti := "aj0", type := "access",
    exp := 30 * 60 }

/-- Witness for C7's amended statement at the fixture state exSt. -/
theorem C7_amended_revocation_witness :
    (revoke_session "A" "user_logout" 100 noFaults exSt).1 = true ∧
    (revoke_session "A" "user_logout" 200 noFaults
      (revoke_session "A" "user_logout" 100 noFaults exSt).2).1 = true ∧
    (db_revoke_session exSt.db "A" "user_logout" 100).1 = true ∧
    (db_revoke_session (db_revoke_session exSt.db "A" "user_logout" 100).2
      "A" "user_logout" 200).1 = false ∧
    (verify_access_token (Token.valid exA0c) 200 noFaults
      (revoke_session "A" "user_logout" 100 noFaults exSt).2).1 =
      Except.error AuthError.tokenRevoked :=
  C7_amended_revocation "A" "user_logout" 100 200 noFaults exSt exRow exA0c
    rfl rfl rfl rfl (by decide)

/-- Characterizes the fault-free success path of refresh_session: the
returned pair and the exact final state (deny-listed old jti, rewritten
session cache entry, refreshed activity marker, bumped metric, updated
durable row). -/
theorem refresh_session_ok (c : TokenClaims) (aj rj : String) (now : Nat)
    (st : SysState)
    (hexp : now < c.exp) (htype : c.type = "refresh")
    (hnotbl : aget st.cache.blacklist c.jti = none)
    (hactive : is_user_inactive c.user_id now st = false) :
    refresh_session (Token.valid c) aj rj now noFaults st =
      (Except.ok { access_token := create_access_token c.user_id c.session_id aj now,
                   refresh_token := create_refresh_token c.user_id c.session_id rj now,
                   expires_in := ACCESS_TOKEN_EXPIRE_MINUTES * 60 },
       { cache := { blacklist := aset st.cache.blacklist c.jti "refreshed",
                    sessions := aset st.cache.sessions c.session_id ({ user_id := c.user_id, last_activity := now, access_jti := aj, refresh_jti := rj, status := "active" }),
                    activity := aset st.cache.activity c.user_id now,
                    metrics := incr_metric st.cache.metrics "metric:tokens_refreshed" },
         db := db_update_session_tokens st.db c.session_id aj rj now (now + ACCESS_TOKEN_EXPIRE_MINUTES * 60) }) := by
  have hns : ¬ (c.exp ≤ now) := Nat.not_le.mpr hexp
  have htb : (c.type != "refresh") = false := by simp [htype]
  have hbl : (aget st.cache.blacklist c.jti).isSome = false := by
    rw [hnotbl]
    rfl
  simp [refresh_session, verify_token, hns, htb, hbl, hactive,
        update_session_tokens, noFaults]

/-- A refresh attempt with a decodable, refresh-typed token whose jti is
already deny-listed fails with TokenRevoked and leaves the state unchanged. -/
theorem refresh_session_denied (c : TokenClaims) (aj rj : String) (now : Nat)
    (f : Faults) (st : SysState)
    (hexp : now < c.exp) (htype : c.type = "refresh")
    (hbl : (aget st.cache.blacklist c.jti).isSome = true) :
    refresh_session (Token.valid c) aj rj now f st =
      (Except.error AuthError.tokenRevoked, st) := by
  have hns : ¬ (c.exp ≤ now) := Nat.not_le.mpr hexp
  have htb : (c.type != "refresh") = false := by simp [htype]
  simp [refresh_session, verify_token, hns, htb, hbl]

/-- C1: single-use rotation.  A successful refresh_session on refresh token
r0 returns the new pair; every subsequent refresh_session on r0 (while r0
still decodes) fails with TokenRevoked; and refresh_session on the newly
returned refresh token succeeds. -/
theorem C1_single_use_rotation (c0 : TokenClaims)
    (aj1 rj1 aj2 rj2 aj3 rj3 : String) (now now2 : Nat) (st0 : SysState)
    (htype : c0.type = "refresh")
    (hexp : now < c0.exp)
    (hnotbl : aget st0.cache.blacklist c0.jti = none)
    (hactive : is_user_inactive c0.user_id now st0 = false)
    (hexp2 : now2 < c0.exp)
    (hfresh : now2 - now ≤ INACTIVITY_TIMEOUT_SECONDS)
    (hexp1 : now2 < now + REFRESH_TOKEN_EXPIRE_DAYS * 24 * 60 * 60)
    (hrne : rj1 ≠ c0.jti)
    (hrbl : aget st0.cache.blacklist rj1 = none) :
    (refresh_session (Token.valid c0) aj1 rj1 now noFaults st0).1 =
      Except.ok { access_token := create_access_token c0.user_id c0.session_id aj1 now,
                  refresh_token := create_refresh_token c0.user_id c0.session_id rj1 now,
                  expires_in := ACCESS_TOKEN_EXPIRE_MINUTES * 60 } ∧
    (refresh_session (Token.valid c0) aj2 rj2 now2 noFaults
      (refresh_session (Token.valid c0) aj1 rj1 now noFaults st0).2).1 =
      Except.error AuthError.tokenRevoked ∧
    (refresh_session (create_refresh_token c0.user_id c0.session_id rj1 now)
      aj3 rj3 now2 noFaults
      (refresh_session (Token.valid c0) aj1 rj1 now noFaults st0).2).1 =
      Except.ok { access_token := create_access_token c0.user_id c0.session_id aj3 now2,
                  refresh_token := create_refresh_token c0.user_id c0.session_id rj3 now2,
                  expires_in := ACCESS_TOKEN_EXPIRE_MINUTES * 60 } := by
  have hok := refresh_session_ok c0 aj1 rj1 now st0 hexp htype hnotbl hactive
  have hbl1 : (aget (refresh_session (Token.valid c0) aj1 rj1 now noFaults
      st0).2.cache.blacklist c0.jti).isSome = true := by
    rw [hok]
    show (aget (aset st0.cache.blacklist c0.jti "refreshed") c0.jti).isSome = true
    rw [aget_aset_self]
    rfl
  have hnb : aget (refresh_session (Token.valid c0) aj1 rj1 now noFaults
      st0).2.cache.blacklist rj1 = none := by
    rw [hok]
    show aget (aset st0.cache.blacklist c0.jti "refreshed") rj1 = none
    rw [aget_aset_ne st0.cache.blacklist c0.jti rj1 "refreshed" (Ne.symm hrne)]
    exact hrbl
  have hac : is_user_inactive c0.user_id now2
      (refresh_session (Token.valid c0) aj1 rj1 now noFaults st0).2 = false := by
    rw [hok]
    show is_user_inactive c0.user_id now2 _ = false
    unfold is_user_inactive
    show (match aget (aset st0.cache.activity c0.user_id now) c0.user_id with
          | none => true
          | some t => decide (now2 - t > INACTIVITY_TIMEOUT_SECONDS)) = false
    rw [aget_aset_self]
    simp only [decide_eq_false_iff_not]
    omega
  refine ⟨?_, ?_, ?_⟩
  · rw [hok]
  · rw [refresh_session_denied c0 aj2 rj2 now2 noFaults
      (refresh_session (Token.valid c0) aj1 rj1 now noFaults st0).2
      hexp2 htype hbl1]
  · rw [show create_refresh_token c0.user_id c0.session_id rj1 now =
        Token.valid ({ user_id := c0.user_id, session_id := c0.session_id,
                       jti := rj1, type := "refresh",
                       exp := now + REFRESH_TOKEN_EXPIRE_DAYS * 24 * 60 * 60 }) from rfl]
    rw [refresh_session_ok
      ({ user_id := c0.user_id, session_id := c0.session_id, jti := rj1,
         type := "refresh", exp := now + REFRESH_TOKEN_EXPIRE_DAYS * 24 * 60 * 60 })
      aj3 rj3 now2
      (refresh_session (Token.valid c0) aj1 rj1 now noFaults st0).2
      hexp1 rfl hnb hac]

/-- Witness for C1 at the fixture state exSt: refresh succeeds, replaying the
old refresh token fails with TokenRevoked, and the new refresh token
succeeds. -/
theorem C1_single_use_rotation_witness :
    (refresh_session exR0 "aj1" "rj1" 100 noFaults exSt).1 =
      Except.ok { access_token := create_access_token 1 "A" "aj1" 100,
                  refresh_token := create_refresh_token 1 "A" "rj1" 100,
                  expires_in := 1800 } ∧
    (refresh_session exR0 "aj2" "rj2" 200 noFaults
      (refresh_session exR0 "aj1" "rj1" 100 noFaults exSt).2).1 =
      Except.error AuthError.tokenRevoked ∧
    (refresh_session (create_refresh_token 1 "A" "rj1" 100) "aj3" "rj3" 200
      noFaults (refresh_session exR0 "aj1" "rj1" 100 noFaults exSt).2).1 =
      Except.ok { access_token := create_access_token 1 "A" "aj3" 200,
                  refresh_token := create_refresh_token 1 "A" "rj3" 200,
                  expires_in := 1800 } :=
  C1_single_use_rotation exR0c "aj1" "rj1" "aj2" "rj2" "aj3" "rj3" 100 200 exSt
    rfl (by decide) rfl (by decide) (by decide) (by decide) (by decide)
    (by decide) rfl

/-- C8: for a user whose active durable sessions are exactly A, B, C,
revoke_all_user_sessions with exclude = B returns 2; A and C transition to
revoked while B stays active; B's session cache entry survives, B's jtis are
never deny-listed, and B's access token still verifies afterward. -/
theorem C8_bulk_exclude (uid : Nat) (reason : String) (now now2 : Nat)
    (st : SysState) (rA rB rC : SessionRow) (sdB : SessionCacheData)
    (c : TokenClaims)
    (hsess : st.db.sessions = [rA, rB, rC])
    (huser : (st.db.users.any fun u => u.id == uid) = true)
    (hAuid : rA.user_id = uid) (hBuid : rB.user_id = uid) (hCuid : rC.user_id = uid)
    (hAst : rA.status = "active") (hBst : rB.status = "active")
    (hCst : rC.status = "active")
    (hAB : rA.session_id ≠ rB.session_id) (hCB : rC.session_id ≠ rB.session_id)
    (hBne : rB.session_id ≠ "")
    (hsdB : aget st.cache.sessions rB.session_id = some sdB)
    (hbl0 : aget st.cache.blacklist rB.access_token_jti = none)
    (h1 : rA.access_token_jti ≠ rB.access_token_jti)
    (h2 : rA.refresh_token_jti ≠ rB.access_token_jti)
    (h3 : rC.access_token_jti ≠ rB.access_token_jti)
    (h4 : rC.refresh_token_jti ≠ rB.access_token_jti)
    (hcjti : c.jti = rB.access_token_jti)
    (hcsid : c.session_id = rB.session_id)
    (hctype : c.type = "access")
    (hcexp : now2 < c.exp) :
    (revoke_all_user_sessions uid reason (some rB.session_id) now noFaults st).1
      = 2 ∧
    (revoke_all_user_sessions uid reason (some rB.session_id) now
        noFaults st).2.db.sessions =
      [{ rA with status := "revoked", revoked_at := some now, revoked_reason := some reason },
       rB,
       { rC with status := "revoked", revoked_at := some now, revoked_reason := some reason }] ∧
    aget (revoke_all_user_sessions uid reason (some rB.session_id) now
      noFaults st).2.cache.sessions rB.session_id = some sdB ∧
    aget (revoke_all_user_sessions uid reason (some rB.session_id) now
      noFaults st).2.cache.blacklist rB.access_token_jti = none ∧
    (verify_access_token (Token.valid c) now2 noFaults
      (revoke_all_user_sessions uid reason (some rB.session_id) now
        noFaults st).2).1 = Except.ok c := by
  have eB : (rB.session_id == "") = false := by simp [hBne]
  have eA : (rA.session_id == rB.session_id) = false := by simp [hAB]
  have eC : (rC.session_id == rB.session_id) = false := by simp [hCB]
  have hexA : bulk_revoke_hits uid (some rB.session_id) rA = true := by
    unfold bulk_revoke_hits
    simp [hAuid, hAst, eB, eA]
  have hexB : bulk_revoke_hits uid (some rB.session_id) rB = false := by
    unfold bulk_revoke_hits
    simp [eB]
  have hexC : bulk_revoke_hits uid (some rB.session_id) rC = true := by
    unfold bulk_revoke_hits
    simp [hCuid, hCst, eB, eC]
  have hrowA : bulk_revoke_row uid reason (some rB.session_id) now rA =
      { rA with status := "revoked", revoked_at := some now, revoked_reason := some reason } := by
    unfold bulk_revoke_row
    rw [hexA]
    simp
  have hrowB : bulk_revoke_row uid reason (some rB.session_id) now rB = rB := by
    unfold bulk_revoke_row
    rw [hexB]
    simp
  have hrowC : bulk_revoke_row uid reason (some rB.session_id) now rC =
      { rC with status := "revoked", revoked_at := some now, revoked_reason := some reason } := by
    unfold bulk_revoke_row
    rw [hexC]
    simp
  have hjoinA : (st.db.users.any fun u => u.id == rA.user_id) = true := by
    rw [hAuid]
    exact huser
  have hjoinB : (st.db.users.any fun u => u.id == rB.user_id) = true := by
    rw [hBuid]
    exact huser
  have hjoinC : (st.db.users.any fun u => u.id == rC.user_id) = true := by
    rw [hCuid]
    exact huser
  have hgbu : db_get_by_user st.db uid "active" = [rA, rB, rC] := by
    unfold db_get_by_user
    rw [hsess]
    simp [List.filter, hAuid, hAst, hBuid, hBst, hCuid, hCst,
          hjoinA, hjoinB, hjoinC, huser]
  have hbulk : db_revoke_user_sessions st.db uid reason (some rB.session_id) now =
      (2, { users := st.db.users,
            sessions := [{ rA with status := "revoked", revoked_at := some now, revoked_reason := some reason },
                         rB,
                         { rC with status := "revoked", revoked_at := some now, revoked_reason := some reason }] }) := by
    unfold db_revoke_user_sessions
    rw [hsess]
    simp [List.countP, List.countP.go, hexA, hexB, hexC, hrowA, hrowB, hrowC]
  have hstate : revoke_all_user_sessions uid reason (some rB.session_id) now
      noFaults st =
      (2, { cache := { blacklist := aset (aset (aset (aset st.cache.blacklist rA.access_token_jti reason) rA.refresh_token_jti reason) rC.access_token_jti reason) rC.refresh_token_jti reason,
                       sessions := adel (adel st.cache.sessions rA.session_id) rC.session_id,
                       activity := adel st.cache.activity uid,
                       metrics := incr_metric st.cache.metrics "metric:bulk_sessions_revoked" },
            db := { users := st.db.users,
                    sessions := [{ rA with status := "revoked", revoked_at := some now, revoked_reason := some reason },
                                 rB,
                                 { rC with status := "revoked", revoked_at := some now, revoked_reason := some reason }] } }) := by
    unfold revoke_all_user_sessions
    rw [hgbu, hbulk]
    simp [noFaults, List.foldl, eB, eA, eC]
  refine ⟨?_, ?_, ?_, ?_, ?_⟩
  · rw [hstate]
  · rw [hstate]
  · rw [hstate]
    show aget (adel (adel st.cache.sessions rA.session_id) rC.session_id)
      rB.session_id = some sdB
    rw [aget_adel_ne _ rC.session_id rB.session_id hCB,
        aget_adel_ne _ rA.session_id rB.session_id hAB]
    exact hsdB
  · rw [hstate]
    show aget (aset (aset (aset (aset st.cache.blacklist rA.access_token_jti reason) rA.refresh_token_jti reason) rC.access_token_jti reason) rC.refresh_token_jti reason) rB.access_token_jti = none
    rw [aget_aset_ne _ rC.refresh_token_jti rB.access_token_jti reason h4,
        aget_aset_ne _ rC.access_token_jti rB.access_token_jti reason h3,
        aget_aset_ne _ rA.refresh_token_jti rB.access_token_jti reason h2,
        aget_aset_ne _ rA.access_token_jti rB.access_token_jti reason h1]
    exact hbl0
  · rw [hstate]
    have hns2 : ¬ (c.exp ≤ now2) := Nat.not_le.mpr hcexp
    have htb : (c.type != "access") = false := by simp [hctype]
    have hblx : (aget (aset (aset (aset (aset st.cache.blacklist rA.access_token_jti reason) rA.refresh_token_jti reason) rC.access_token_jti reason) rC.refresh_token_jti reason) c.jti).isSome = false := by
      rw [hcjti]
      rw [aget_aset_ne _ rC.refresh_token_jti rB.access_token_jti reason h4,
          aget_aset_ne _ rC.access_token_jti rB.access_token_jti reason h3,
          aget_aset_ne _ rA.refresh_token_jti rB.access_token_jti reason h2,
          aget_aset_ne _ rA.access_token_jti rB.access_token_jti reason h1,
          hbl0]
      rfl
    have hsesx : aget (adel (adel st.cache.sessions rA.session_id)
        rC.session_id) c.session_id = some sdB := by
      rw [hcsid]
      rw [aget_adel_ne _ rC.session_id rB.session_id hCB,
          aget_adel_ne _ rA.session_id rB.session_id hAB]
      exact hsdB
    simp [verify_access_token, verify_token, hns2, htb, hblx, hsesx]

/-- Active session A of the three-session fixture. -/
def exRowA : SessionRow :=
  { session_id := "SA", user_id := 1, access_token_jti := "aA",
    refresh_token_jti := "rA", device_info := "{}", ip_address := "1.1.1.1",
    user_agent := "ua", created_at := 0, last_activity := 0, expires_at := 1800,
    status := "active", revoked_at := none, revoked_reason := none }

/-- Active session B of the three-session fixture (the excluded one). -/
def exRowB : SessionRow :=
  { session_id := "SB", user_id := 1, access_token_jti := "aB",
    refresh_token_jti := "rB", device_info := "{}", ip_address := "2.2.2.2",
    user_agent := "ua", created_at := 0, last_activity := 0, expires_at := 1800,
    status := "active", revoked_at := none, revoked_reason := none }

/-- Active session C of the three-session fixture. -/
def exRowC : SessionRow :=
  { session_id := "SC", user_id := 1, access_token_jti := "aC",
    refresh_token_jti := "rC", device_info := "{}", ip_address := "3.3.3.3",
    user_agent := "ua", created_at := 0, last_activity := 0, expires_at := 1800,
    status := "active", revoked_at := none, revoked_reason := none }

/-- Session B's cache entry in the three-session fixture. -/
def exSdB : SessionCacheData :=
  { user_id := 1, last_activity := 0, access_jti := "aB", refresh_jti := "rB",
    status := "active" }

/-- A state where user 1 has the three active sessions A, B, C. -/
def exStABC : SysState :=
  { cache := { blacklist := [], sessions := [("SB", exSdB)],
               activity := [(1, 0)], metrics := [] },
    db := { users := [exUser], sessions := [exRowA, exRowB, exRowC] } }

/-- The decoded claims of session B's access token. -/
def exCB : TokenClaims :=
  { user_id := 1, session_id := "SB", jti := "aB", type := "access",
    exp := 1800 }

/-- Witness for C8 at the three-session fixture: revoke-all excluding B
returns 2, A and C are revoked, B stays active and its access token still
verifies. -/
theorem C8_bulk_exclude_witness :
    (revoke_all_user_sessions 1 "logout_all" (some "SB") 50 noFaults exStABC).1
      = 2 ∧
    (revoke_all_user_sessions 1 "logout_all" (some "SB") 50
        noFaults exStABC).2.db.sessions =
      [{ exRowA with status := "revoked", revoked_at := some 50, revoked_reason := some "logout_all" },
       exRowB,
       { exRowC with status := "revoked", revoked_at := some 50, revoked_reason := some "logout_all" }] ∧
    aget (revoke_all_user_sessions 1 "logout_all" (some "SB") 50
      noFaults exStABC).2.cache.sessions "SB" = some exSdB ∧
    aget (revoke_all_user_sessions 1 "logout_all" (some "SB") 50
      noFaults exStABC).2.cache.blacklist "aB" = none ∧
    (verify_access_token (Token.valid exCB) 100 noFaults
      (revoke_all_user_sessions 1 "logout_all" (some "SB") 50
        noFaults exStABC).2).1 = Except.ok exCB :=
  C8_bulk_exclude 1 "logout_all" 50 100 exStABC exRowA exRowB exRowC exSdB exCB
    rfl rfl rfl rfl rfl rfl rfl rfl (by decide) (by decide) (by decide) rfl rfl
    (by decide) (by decide) (by decide) (by decide) rfl rfl rfl (by decide)

end ApiNebula
